import Mathlib

/-!
Verification of the resource-lifecycle and frame-synchronization core of the
titan renderer.  Rust source functions are shallowly embedded as Lean
definitions: native Vulkan handles become naturals (`0` models a null handle),
slotmap key lookups that the Rust code `unwrap`s become `Option` binds whose
`none` models the panic, and the sequence of native calls a function issues is
reified as a trace of events.
-/

/-- Constant MAX_FRAMES_IN_FLIGHT from src/titan-engine/src/graphics/mod.rs:
the number N of frame slots of the frame synchronization engine. -/
def MAX_FRAMES_IN_FLIGHT : Nat := 10

/-- A native Vulkan handle, modelled as a natural number. -/
abbrev Handle := Nat

/-- Model of vk::Fence::null(): the null handle. -/
def nullFence : Handle := 0

/-- Pipeline stage flags that appear in the embedded code. -/
inductive PipelineStage
  | colorAttachmentOutput
  deriving DecidableEq

/-- One native Vulkan call issued by Renderer::render, in issue order.
There is no constructor for command recording: render never records. -/
inductive RenderEvent
  | waitForFences (fences : List Handle)
  | acquireNextImage (swapchain : Handle) (semaphore : Handle)
  | resetFences (fences : List Handle)
  | queueSubmit (queue : Handle) (waitSemaphores : List Handle)
      (waitDstStageMask : List PipelineStage) (commandBuffers : List Handle)
      (signalSemaphores : List Handle) (fence : Handle)
  | queuePresent (queue : Handle) (waitSemaphores : List Handle)
      (swapchains : List Handle) (imageIndices : List Nat)
  deriving DecidableEq

/-- The mutable state of the Renderer struct (graphics/mod.rs) that the
render path reads and writes.  Per-slot slotmap keys are modelled as the
native handles they resolve to; `imagesInFlight` is the table of
vk::Fence handles indexed by swapchain image index. -/
structure RendererState where
  frameIndex : Nat
  imagesInFlight : List Handle
  inFlightFences : List Handle
  renderFinishedSemaphores : List Handle
  imageAvailableSemaphores : List Handle
  commandBuffers : List Handle
  swapchainImages : List Handle
  swapchain : Handle
  deviceQueues : List Handle
  device : Handle
  deriving DecidableEq

/-- Renderer::render (graphics/mod.rs lines 286 to 368).  `acquired` is the
image index returned by acquire_next_image (driver-chosen).  The returned
list is the trace of native calls in issue order together with the updated
renderer state; `none` models the panics of the out-of-bounds or stale-key
`unwrap`s.  Native call failures are not modelled here: the claims about
this path concern successful calls. -/
def render (s : RendererState) (acquired : Nat) :
    Option (List RenderEvent × RendererState) := do
  let inFlightFence ← s.inFlightFences[s.frameIndex]?
  let imageAvailableSemaphore ← s.imageAvailableSemaphores[s.frameIndex]?
  let renderFinishedSemaphore ← s.renderFinishedSemaphores[s.frameIndex]?
  let queue ← s.deviceQueues[0]?
  let imageIndex := acquired
  let commandBuffer ← s.commandBuffers[imageIndex]?
  let imageFence ← s.imagesInFlight[imageIndex]?
  let extraWait :=
    if imageFence ≠ nullFence then [RenderEvent.waitForFences [imageFence]] else []
  some (
    [RenderEvent.waitForFences [inFlightFence],
     RenderEvent.acquireNextImage s.swapchain imageAvailableSemaphore]
    ++ extraWait
    ++ [RenderEvent.resetFences [inFlightFence],
        RenderEvent.queueSubmit queue [imageAvailableSemaphore]
          [PipelineStage.colorAttachmentOutput] [commandBuffer]
          [renderFinishedSemaphore] inFlightFence,
        RenderEvent.queuePresent queue [renderFinishedSemaphore]
          [s.swapchain] [imageIndex]],
    { s with
        imagesInFlight := s.imagesInFlight.set imageIndex inFlightFence,
        frameIndex := (s.frameIndex + 1) % MAX_FRAMES_IN_FLIGHT })

/-- Fence creation info: graphics/mod.rs lines 255 to 256 builds it with
vk::FenceCreateFlags::SIGNALED. -/
structure FenceCreateInfo where
  signaled : Bool
  deriving DecidableEq

/-- The fence_create_info value of Renderer::new. -/
def fenceCreateInfo : FenceCreateInfo := { signaled := true }

/-- A fence object; per the Vulkan specification its initial state is
signaled exactly when the SIGNALED create flag is set. -/
structure Fence where
  signaled : Bool
  deriving DecidableEq

/-- Fence::new reduced to the state-relevant effect of vkCreateFence. -/
def Fence.new (info : FenceCreateInfo) : Fence := { signaled := info.signaled }

/-- Whether waiting on a fence blocks: a wait on an already signaled fence
returns immediately. -/
def fenceWaitBlocks (f : Fence) : Bool := !f.signaled

/-- The in_flight_fences created by Renderer::new (graphics/mod.rs lines 257
to 260): one fence per frame slot, each created from fence_create_info. -/
def inFlightFencesNew : List Fence :=
  (List.range MAX_FRAMES_IN_FLIGHT).map fun _ => Fence.new fenceCreateInfo

/-- The Renderer value assembled at the end of Renderer::new (graphics/mod.rs
lines 262 to 283), given the handles of the created resources.  Note that
images_in_flight is initialised to `vec![vk::Fence::null(); MAX_FRAMES_IN_FLIGHT]`
(line 281), independent of how many swapchain images exist. -/
def rendererNew (device : Handle) (deviceQueues : List Handle)
    (swapchain : Handle) (swapchainImages : List Handle)
    (commandBuffers : List Handle)
    (imageAvailableSemaphores renderFinishedSemaphores : List Handle)
    (inFlightFences : List Handle) : RendererState :=
  { frameIndex := 0
    imagesInFlight := List.replicate MAX_FRAMES_IN_FLIGHT nullFence
    inFlightFences := inFlightFences
    renderFinishedSemaphores := renderFinishedSemaphores
    imageAvailableSemaphores := imageAvailableSemaphores
    commandBuffers := commandBuffers
    swapchainImages := swapchainImages
    swapchain := swapchain
    deviceQueues := deviceQueues
    device := device }

/-- A keyed resource registry (crate::graphics::slotmap), modelled as an
association list from Nat keys to entries; slotmap keys are unique by
construction. -/
abbrev Reg (α : Type) : Type := List (Nat × α)

/-- SlotMap::get: lookup of a key under a read lock. -/
def Reg.get {α : Type} : Reg α → Nat → Option α
  | [], _ => none
  | (k, v) :: rest, j => if k = j then some v else Reg.get rest j

/-- SlotMap::remove: removal of a key under a write lock. -/
def Reg.remove {α : Type} : Reg α → Nat → Reg α
  | [], _ => []
  | (k, v) :: rest, j =>
      if k = j then Reg.remove rest j else (k, v) :: Reg.remove rest j

/-- A physical device as observed by the selection code of Renderer::new.
The three predicate fields abstract PhysicalDevice::is_suitable,
Surface::is_suitable (fallible, hence Option) and non-emptiness of
physical_device_queue_family_properties_support, whose implementations live
in modules not under src/.  Modelled from the spec: `rank` is the
deterministic ranking key of a device (the Ord implementation of
PhysicalDevice is not under src/), e.g. preferring discrete over
integrated devices. -/
structure PhysicalDevice where
  isSuitable : Bool
  surfaceSuitable : Option Bool
  queueFamilySupport : Bool
  rank : Nat
  deriving DecidableEq

/-- The filter predicate of the selection loop (graphics/mod.rs lines 83 to
89): value.is_suitable() && surface.is_suitable(value).unwrap_or(false) &&
the queue-family support iterator is non-empty. -/
def physicalDeviceSuitable (d : PhysicalDevice) : Bool :=
  d.isSuitable && d.surfaceSuitable.getD false && d.queueFamilySupport

/-- Comparison key used by max_by_key on line 106: the derived order of
Option<&PhysicalDevice> (None below every Some, Somes ordered by the device
ranking), encoded into Nat. -/
def optionDeviceKey : Option PhysicalDevice → Nat
  | none => 0
  | some d => d.rank + 1

/-- Accumulator loop of Rust's Iterator::max_by_key: the accumulator is
replaced whenever the new element's key is greater than OR EQUAL, so among
tied elements the last one encountered wins. -/
def maxByKeyRustAux {α : Type} (f : α → Nat) : α → List α → α
  | m, [] => m
  | m, x :: xs => maxByKeyRustAux f (if f m ≤ f x then x else m) xs

/-- Rust's Iterator::max_by_key; none exactly on the empty list. -/
def maxByKeyRust {α : Type} (f : α → Nat) : List α → Option α
  | [] => none
  | x :: xs => some (maxByKeyRustAux f x xs)

/-- The `retain` list of the selection filter pass (graphics/mod.rs lines 81
to 91): enumerated keys whose devices pass the suitability predicates. -/
def survivors (registry : Reg PhysicalDevice) (physicalDevices : List Nat) :
    List Nat :=
  physicalDevices.filter fun k =>
    ((registry.get k).map physicalDeviceSuitable).getD false

/-- The removal for-loops of device selection (graphics/mod.rs lines 92 to 96
and 108 to 112): each key of ks that fails p is removed from the registry. -/
def removeUnless {α : Type} (p : Nat → Bool) (reg : Reg α) (ks : List Nat) :
    Reg α :=
  ks.foldl (fun r k => if p k then r else r.remove k) reg

/-- The ranking key of a registry key as evaluated by max_by_key. -/
def rankKey (registry : Reg PhysicalDevice) (k : Nat) : Nat :=
  optionDeviceKey (registry.get k)

/-- Result of the physical device selection block: the Rust code can panic
(unwrap of a missing key), fail with an error, or succeed. -/
inductive SelectOutcome
  | panicked
  | failed (msg : String)
  | selected (key : Nat) (registry : Reg PhysicalDevice)
  deriving DecidableEq

/-- The PhysicalDevice registry after the filter pass removed every failing
device (graphics/mod.rs lines 92 to 96). -/
def selectionRegistryAfterFilter (registry : Reg PhysicalDevice)
    (physicalDevices : List Nat) : Reg PhysicalDevice :=
  removeUnless (fun k => (survivors registry physicalDevices).contains k)
    registry physicalDevices

/-- The physical device selection block of Renderer::new (graphics/mod.rs
lines 72 to 114).  `registry` is the PhysicalDevice slotmap right after
enumerate_physical_devices and `physicalDevices` the enumerated keys.  The
filter's `.unwrap()` on a missing key is the panic (outer guard); the two
for-loops are removeUnless folds; max_by_key reads the registry after the
first removal pass and resolves ties to the LAST maximal key; finally every
retained key other than the chosen one is removed. -/
def selectPhysicalDevice (registry : Reg PhysicalDevice)
    (physicalDevices : List Nat) : SelectOutcome :=
  if physicalDevices.all fun k => (registry.get k).isSome then
    match maxByKeyRust
        (rankKey (selectionRegistryAfterFilter registry physicalDevices))
        (survivors registry physicalDevices) with
    | none => SelectOutcome.failed "no suitable physical devices were found"
    | some best =>
        SelectOutcome.selected best
          (removeUnless (fun k => k == best)
            (selectionRegistryAfterFilter registry physicalDevices)
            (survivors registry physicalDevices))
  else SelectOutcome.panicked

/-- Semantic version triple (crate::version::Version). -/
structure Version where
  major : Nat
  minor : Nat
  patch : Nat
  deriving DecidableEq

/-- Version::default(). -/
def Version.default : Version := { major := 0, minor := 0, patch := 0 }

/-- ash's vk::make_version(major, minor, patch):
(major << 22) | (minor << 12) | patch. -/
def vkMakeVersion (major minor patch : Nat) : Nat :=
  (major <<< 22) ||| (minor <<< 12) ||| patch

/-- ash's vk::version_major. -/
def vkVersionMajor (v : Nat) : Nat := v >>> 22

/-- ash's vk::version_minor. -/
def vkVersionMinor (v : Nat) : Nat := (v >>> 12) &&& 0x3ff

/-- ash's vk::version_patch. -/
def vkVersionPatch (v : Nat) : Nat := v &&& 0xfff

/-- graphics/utils.rs to_vk_version. -/
def toVkVersion (v : Version) : Nat := vkMakeVersion v.major v.minor v.patch

/-- graphics/utils.rs from_vk_version. -/
def fromVkVersion (v : Nat) : Version :=
  { major := vkVersionMajor v, minor := vkVersionMinor v, patch := vkVersionPatch v }

/-- vk::API_VERSION_1_0, the floor used when the driver reports no version. -/
def API_VERSION_1_0 : Nat := vkMakeVersion 1 0 0

/-- vk::API_VERSION_1_2. -/
def API_VERSION_1_2 : Nat := vkMakeVersion 1 2 0

/-- The engine configuration (src/src/config.rs). -/
structure Config where
  appName : String
  appVersion : Version
  engineName : String
  engineVersion : Version
  enableValidation : Bool
  deriving DecidableEq

/-- Config::new (config.rs lines 12 to 25). -/
def Config.new (appName : String) (appVersion : Version)
    (enableValidation : Bool) : Config :=
  { appName := appName
    appVersion := appVersion
    engineName := "titan"
    engineVersion := Version.default
    enableValidation := enableValidation }

/-- Version-related fields of vk::ApplicationInfo as set by Instance::new. -/
structure ApplicationInfo where
  applicationVersion : Nat
  engineVersion : Nat
  apiVersion : Nat
  deriving DecidableEq

/-- The version bookkeeping of Instance::new (src/src/graphics/instance.rs
lines 30 to 51; the same logic appears at src/titan-engine/src/graphics/
instance.rs lines 38 to 59).  `driverVersion` is the result of
try_enumerate_instance_version.  Returns the Version value stored in the
Instance together with the application info passed to vkCreateInstance,
whose api_version field the source sets to vk::API_VERSION_1_2. -/
def instanceNewVersionInfo (config : Config) (driverVersion : Option Nat) :
    Version × ApplicationInfo :=
  let version :=
    match driverVersion with
    | some v => fromVkVersion v
    | none => fromVkVersion API_VERSION_1_0
  (version,
   { applicationVersion := toVkVersion config.appVersion
     engineVersion := toVkVersion config.engineVersion
     apiVersion := API_VERSION_1_2 })

/-- Modelled from the spec: crate::window::Size is not under src/; per the
spec a zero-size resize makes the callback receive a default/zero size, so
Size.default carries zero dimensions. -/
structure Size where
  width : Nat
  height : Nat
  deriving DecidableEq

/-- Size::default(). -/
def Size.default : Size := { width := 0, height := 0 }

/-- Events forwarded to the application callback (crate::window::Event). -/
inductive AppEvent
  | created
  | resized (size : Size)
  | destroyed
  deriving DecidableEq

/-- Actions the WindowEvent::Resized arm of Application::run can perform. -/
inductive RunAction
  | callback (event : AppEvent)
  | rendererResize
  | setExitControlFlow
  deriving DecidableEq

/-- The WindowEvent::Resized arm of Application::run (app/mod.rs lines 46 to
58).  `resizeOk` abstracts whether renderer.resize() returns Ok.  The result
is the list of actions in execution order: with a zero dimension the
callback is invoked with Size::default() and the arm returns at once;
otherwise renderer.resize() runs, and on its failure the loop exits. -/
def handleResizedEvent (width height : Nat) (resizeOk : Bool) :
    List RunAction :=
  if width = 0 ∨ height = 0 then
    [RunAction.callback (AppEvent.resized Size.default)]
  else if resizeOk then
    [RunAction.rendererResize,
     RunAction.callback (AppEvent.resized { width := width, height := height })]
  else
    [RunAction.rendererResize, RunAction.setExitControlFlow]

/-- A logical device entry of the Device registry. -/
structure Device where
  handle : Handle
  deriving DecidableEq

/-- The PipelineLayout resource (pipeline/layout.rs). -/
structure PipelineLayout where
  key : Nat
  handle : Handle
  parentDevice : Nat
  deriving DecidableEq

/-- PipelineLayout::with (pipeline/layout.rs lines 28 to 45): looks up the
parent device, surfacing a missing key as the error "device not found";
otherwise the native handle is created (`createdHandle`, the result of
create_pipeline_layout) and the new value inserted under a fresh slotmap
key (`newKey`). -/
def PipelineLayout.withCreateInfo (devices : Reg Device) (deviceKey : Nat)
    (createdHandle : Handle) (newKey : Nat) : Except String PipelineLayout :=
  match devices.get deviceKey with
  | none => Except.error "device not found"
  | some _ =>
      Except.ok { key := newKey, handle := createdHandle, parentDevice := deviceKey }

/-- Effect of running Drop for PipelineLayout. -/
inductive DropEffect
  | destroyed (handle : Handle)
  | skipped
  deriving DecidableEq

/-- Drop for PipelineLayout (pipeline/layout.rs lines 61 to 73): when the
parent device key is missing from the registry the destructor returns
silently, skipping native destruction and surfacing no error. -/
def PipelineLayout.drop (devices : Reg Device) (self : PipelineLayout) :
    DropEffect :=
  match devices.get self.parentDevice with
  | none => DropEffect.skipped
  | some _ => DropEffect.destroyed self.handle

/-- AtomicBool::compare_exchange(current, new): returns Ok(previous) and
stores `new` when the previous value equals `current`, otherwise
Err(previous) leaving the flag unchanged. -/
def compareExchange (flag current new : Bool) : Except Bool Bool × Bool :=
  if flag = current then (Except.ok flag, new) else (Except.error flag, flag)

/-- Outcome of one call to app::init: an Application is returned, or
Application::new failed, or the "more than one application" error is
returned, or the call panicked. -/
inductive InitOutcome
  | ok
  | newFailed
  | tooMany
  | panicked
  deriving DecidableEq

/-- app::init (app/mod.rs lines 88 to 109) acting on the process-wide FLAG.
`newOk` abstracts whether Application::new succeeds.  The `.unwrap()` of the
compare_exchange result is a panic when that result is Err. -/
def appInit (flag : Bool) (newOk : Bool) : InitOutcome × Bool :=
  match compareExchange flag false true with
  | (Except.ok initialized, flagAfter) =>
      if !initialized then
        ((if newOk then InitOutcome.ok else InitOutcome.newFailed), flagAfter)
      else (InitOutcome.tooMany, flagAfter)
  | (Except.error _, flagAfter) => (InitOutcome.panicked, flagAfter)

/-- Outcomes of a sequence of app::init calls threading the FLAG state. -/
def appInitRun : Bool → List Bool → List InitOutcome
  | _, [] => []
  | flag, newOk :: rest =>
      let r := appInit flag newOk
      r.1 :: appInitRun r.2 rest

/-- A sample renderer state used by concrete witnesses: 3 swapchain images,
10 frame slots, frame slot 0 current, image 1 owned by fence handle 55. -/
def sampleState : RendererState :=
  { frameIndex := 0
    imagesInFlight := [0, 55, 0, 0, 0, 0, 0, 0, 0, 0]
    inFlightFences := [101, 102, 103, 104, 105, 106, 107, 108, 109, 110]
    renderFinishedSemaphores := [301, 302, 303, 304, 305, 306, 307, 308, 309, 310]
    imageAvailableSemaphores := [201, 202, 203, 204, 205, 206, 207, 208, 209, 210]
    commandBuffers := [61, 62, 63]
    swapchainImages := [81, 82, 83]
    swapchain := 7
    deviceQueues := [41]
    device := 1 }

/-- The trace render produces on sampleState when image 1 is acquired. -/
def sampleTrace : List RenderEvent :=
  [RenderEvent.waitForFences [101],
   RenderEvent.acquireNextImage 7 201,
   RenderEvent.waitForFences [55],
   RenderEvent.resetFences [101],
   RenderEvent.queueSubmit 41 [201] [PipelineStage.colorAttachmentOutput]
     [62] [301] 101,
   RenderEvent.queuePresent 41 [301] [7] [1]]

/-- The state render leaves behind on sampleState when image 1 is acquired. -/
def sampleFinal : RendererState :=
  { sampleState with
      imagesInFlight := [0, 101, 0, 0, 0, 0, 0, 0, 0, 0]
      frameIndex := 1 }

/-- A renderer as assembled by Renderer::new with 3 swapchain images. -/
def sampleRenderer : RendererState :=
  rendererNew 1 [41] 7 [81, 82, 83] [61, 62, 63]
    [201, 202, 203, 204, 205, 206, 207, 208, 209, 210]
    [301, 302, 303, 304, 305, 306, 307, 308, 309, 310]
    [101, 102, 103, 104, 105, 106, 107, 108, 109, 110]

/-- A device passing both selection predicates. -/
def devYes : PhysicalDevice :=
  { isSuitable := true, surfaceSuitable := some true,
    queueFamilySupport := true, rank := 4 }

/-- A device failing the surface-compatibility predicate. -/
def devNo : PhysicalDevice :=
  { isSuitable := true, surfaceSuitable := some false,
    queueFamilySupport := true, rank := 9 }

/-- A passing device used twice to build a ranking tie. -/
def devTie : PhysicalDevice :=
  { isSuitable := true, surfaceSuitable := some true,
    queueFamilySupport := true, rank := 5 }

/-- An enumeration of three devices where only key 1 passes selection. -/
def sampleDeviceRegistry : Reg PhysicalDevice :=
  [(0, devNo), (1, devYes), (2, devNo)]

theorem render_eq_of_lookups (s : RendererState) (acquired : Nat)
    (fence semA semR queue cbuf imgFence : Handle)
    (hFence : s.inFlightFences[s.frameIndex]? = some fence)
    (hSemA : s.imageAvailableSemaphores[s.frameIndex]? = some semA)
    (hSemR : s.renderFinishedSemaphores[s.frameIndex]? = some semR)
    (hQueue : s.deviceQueues[0]? = some queue)
    (hCbuf : s.commandBuffers[acquired]? = some cbuf)
    (hImg : s.imagesInFlight[acquired]? = some imgFence) :
    render s acquired = some (
      [RenderEvent.waitForFences [fence],
       RenderEvent.acquireNextImage s.swapchain semA]
      ++ (if imgFence ≠ nullFence then [RenderEvent.waitForFences [imgFence]] else [])
      ++ [RenderEvent.resetFences [fence],
          RenderEvent.queueSubmit queue [semA] [PipelineStage.colorAttachmentOutput]
            [cbuf] [semR] fence,
          RenderEvent.queuePresent queue [semR] [s.swapchain] [acquired]],
      { s with
          imagesInFlight := s.imagesInFlight.set acquired fence,
          frameIndex := (s.frameIndex + 1) % MAX_FRAMES_IN_FLIGHT }) := by
  simp [render, hFence, hSemA, hSemR, hQueue, hCbuf, hImg]

/-- Claim C1: a successful render() starting at frame slot f = frame_index
first waits (unbounded) on frame fence f, then acquires the next swapchain
image yielding image_index, resets fence f, and submits the command buffer
pre-recorded for image_index (the trace records no command recording and
the command buffer list is unchanged) with a wait on the image-available
semaphore of slot f at the color-attachment-output stage, a signal of the
render-finished semaphore of slot f, and fence f signalled on completion;
it then presents image_index waiting on the render-finished semaphore of
slot f, and finally sets frame_index to (f + 1) mod MAX_FRAMES_IN_FLIGHT. -/
theorem render_frame_protocol (s : RendererState) (acquired : Nat)
    (fence semA semR queue cbuf imgFence : Handle)
    (tr : List RenderEvent) (s' : RendererState)
    (hFence : s.inFlightFences[s.frameIndex]? = some fence)
    (hSemA : s.imageAvailableSemaphores[s.frameIndex]? = some semA)
    (hSemR : s.renderFinishedSemaphores[s.frameIndex]? = some semR)
    (hQueue : s.deviceQueues[0]? = some queue)
    (hCbuf : s.commandBuffers[acquired]? = some cbuf)
    (hImg : s.imagesInFlight[acquired]? = some imgFence)
    (h : render s acquired = some (tr, s')) :
    tr =
      [RenderEvent.waitForFences [fence],
       RenderEvent.acquireNextImage s.swapchain semA]
      ++ (if imgFence ≠ nullFence then [RenderEvent.waitForFences [imgFence]] else [])
      ++ [RenderEvent.resetFences [fence],
          RenderEvent.queueSubmit queue [semA] [PipelineStage.colorAttachmentOutput]
            [cbuf] [semR] fence,
          RenderEvent.queuePresent queue [semR] [s.swapchain] [acquired]] ∧
    s'.frameIndex = (s.frameIndex + 1) % MAX_FRAMES_IN_FLIGHT ∧
    s'.commandBuffers = s.commandBuffers := by
  have heq := render_eq_of_lookups s acquired fence semA semR queue cbuf imgFence
    hFence hSemA hSemR hQueue hCbuf hImg
  rw [h] at heq
  simp only [Option.some.injEq, Prod.mk.injEq] at heq
  obtain ⟨htr, hs⟩ := heq
  subst htr
  subst hs
  exact ⟨rfl, rfl, rfl⟩

/-- Witness for C1 at sampleState with image 1 acquired. -/
theorem render_frame_protocol_witness :
    sampleTrace =
      [RenderEvent.waitForFences [101],
       RenderEvent.acquireNextImage sampleState.swapchain 201]
      ++ (if (55 : Handle) ≠ nullFence then [RenderEvent.waitForFences [55]] else [])
      ++ [RenderEvent.resetFences [101],
          RenderEvent.queueSubmit 41 [201] [PipelineStage.colorAttachmentOutput]
            [62] [301] 101,
          RenderEvent.queuePresent 41 [301] [sampleState.swapchain] [1]] ∧
    sampleFinal.frameIndex = (sampleState.frameIndex + 1) % MAX_FRAMES_IN_FLIGHT ∧
    sampleFinal.commandBuffers = sampleState.commandBuffers :=
  render_frame_protocol sampleState 1 101 201 301 41 62 55 sampleTrace sampleFinal
    rfl rfl rfl rfl rfl rfl (by decide)

/-- Claim C2 counterexample: a renderer constructed over 3 swapchain images
still receives an images_in_flight table of MAX_FRAMES_IN_FLIGHT = 10
entries (graphics/mod.rs line 281), not one entry per swapchain image. -/
theorem images_in_flight_size_counterexample :
    sampleRenderer.swapchainImages.length = 3 ∧
    sampleRenderer.imagesInFlight.length = MAX_FRAMES_IN_FLIGHT ∧
    sampleRenderer.imagesInFlight.length ≠ sampleRenderer.swapchainImages.length := by
  decide

/-- Claim C2 (amended): the images_in_flight table is indexed by swapchain
image index but sized MAX_FRAMES_IN_FLIGHT; on every render(), when the
entry for the acquired image_index is non-null the engine waits on that
fence before resetting and submitting, and afterwards the entry for
image_index holds the current slot's frame fence. -/
theorem render_image_fence_ownership (s : RendererState) (acquired : Nat)
    (fence semA semR queue cbuf imgFence : Handle)
    (tr : List RenderEvent) (s' : RendererState)
    (hFence : s.inFlightFences[s.frameIndex]? = some fence)
    (hSemA : s.imageAvailableSemaphores[s.frameIndex]? = some semA)
    (hSemR : s.renderFinishedSemaphores[s.frameIndex]? = some semR)
    (hQueue : s.deviceQueues[0]? = some queue)
    (hCbuf : s.commandBuffers[acquired]? = some cbuf)
    (hImg : s.imagesInFlight[acquired]? = some imgFence)
    (h : render s acquired = some (tr, s')) :
    (imgFence ≠ nullFence →
      tr =
        [RenderEvent.waitForFences [fence],
         RenderEvent.acquireNextImage s.swapchain semA,
         RenderEvent.waitForFences [imgFence],
         RenderEvent.resetFences [fence],
         RenderEvent.queueSubmit queue [semA] [PipelineStage.colorAttachmentOutput]
           [cbuf] [semR] fence,
         RenderEvent.queuePresent queue [semR] [s.swapchain] [acquired]]) ∧
    s'.imagesInFlight[acquired]? = some fence := by
  have heq := render_eq_of_lookups s acquired fence semA semR queue cbuf imgFence
    hFence hSemA hSemR hQueue hCbuf hImg
  rw [h] at heq
  simp only [Option.some.injEq, Prod.mk.injEq] at heq
  obtain ⟨htr, hs⟩ := heq
  subst htr
  subst hs
  constructor
  · intro hne
    simp [hne]
  · have hlt : acquired < s.imagesInFlight.length := (List.getElem?_eq_some.mp hImg).1
    simpa using List.getElem?_set_self (a := fence) hlt

/-- Witness for C2 at sampleState: image 1 is owned by fence handle 55. -/
theorem render_image_fence_ownership_witness :
    ((55 : Handle) ≠ nullFence →
      sampleTrace =
        [RenderEvent.waitForFences [101],
         RenderEvent.acquireNextImage sampleState.swapchain 201,
         RenderEvent.waitForFences [55],
         RenderEvent.resetFences [101],
         RenderEvent.queueSubmit 41 [201] [PipelineStage.colorAttachmentOutput]
           [62] [301] 101,
         RenderEvent.queuePresent 41 [301] [sampleState.swapchain] [1]]) ∧
    sampleFinal.imagesInFlight[1]? = some 101 :=
  render_image_fence_ownership sampleState 1 101 201 301 41 62 55 sampleTrace
    sampleFinal rfl rfl rfl rfl rfl rfl (by decide)

/-- Claim C9: all MAX_FRAMES_IN_FLIGHT in-flight fences of Renderer::new are
created from the SIGNALED create info, hence initially signaled, so the
first wait on any slot's fence completes immediately instead of blocking. -/
theorem in_flight_fences_created_signaled :
    inFlightFencesNew.length = MAX_FRAMES_IN_FLIGHT ∧
    inFlightFencesNew.all (fun f => f.signaled && !fenceWaitBlocks f) = true := by
  decide

theorem Reg.get_remove {α : Type} (r : Reg α) (k j : Nat) :
    (Reg.remove r k).get j = if j = k then none else r.get j := by
  induction r with
  | nil =>
      simp only [Reg.remove, Reg.get]
      split <;> rfl
  | cons hd tl ih =>
      obtain ⟨k0, v⟩ := hd
      simp only [Reg.remove, Reg.get]
      by_cases h0 : k0 = k
      · rw [if_pos h0, ih]
        subst h0
        by_cases hj : j = k0
        · simp [hj]
        · have hk0j : ¬ k0 = j := fun h => hj h.symm
          simp [hj, hk0j]
      · rw [if_neg h0]
        simp only [Reg.get, ih]
        by_cases hj0 : k0 = j
        · have hjk : ¬ j = k := by
            intro h
            exact h0 (hj0.trans h)
          simp [hj0, hjk]
        · simp [hj0]

theorem Reg.get_eq_none_of_not_mem {α : Type} (r : Reg α) (j : Nat)
    (h : j ∉ r.map Prod.fst) : r.get j = none := by
  induction r with
  | nil => rfl
  | cons hd tl ih =>
      obtain ⟨k0, v⟩ := hd
      simp only [List.map_cons, List.mem_cons] at h
      push_neg at h
      simp only [Reg.get]
      rw [if_neg fun hk => h.1 hk.symm]
      exact ih h.2

theorem Reg.get_removeUnless {α : Type} (p : Nat → Bool) (ks : List Nat)
    (reg : Reg α) (j : Nat) :
    (removeUnless p reg ks).get j =
      if j ∈ ks ∧ p j = false then none else reg.get j := by
  induction ks generalizing reg with
  | nil => simp [removeUnless]
  | cons k ks ih =>
      simp only [removeUnless, List.foldl_cons] at ih ⊢
      rw [ih]
      by_cases hj : j ∈ ks ∧ p j = false
      · rw [if_pos hj, if_pos ⟨List.mem_cons_of_mem _ hj.1, hj.2⟩]
      · rw [if_neg hj]
        by_cases hpk : p k = true
        · rw [if_pos hpk]
          by_cases hjc : j ∈ k :: ks ∧ p j = false
          · exfalso
            rcases hjc with ⟨hmem, hpj⟩
            rcases List.mem_cons.mp hmem with rfl | hmem'
            · rw [hpk] at hpj
              cases hpj
            · exact hj ⟨hmem', hpj⟩
          · rw [if_neg hjc]
        · rw [if_neg hpk, Reg.get_remove]
          by_cases hjk : j = k
          · subst hjk
            rw [if_pos rfl,
              if_pos ⟨List.mem_cons_self j ks, Bool.eq_false_iff.mpr hpk⟩]
          · rw [if_neg hjk]
            by_cases hjc : j ∈ k :: ks ∧ p j = false
            · exfalso
              rcases hjc with ⟨hmem, hpj⟩
              rcases List.mem_cons.mp hmem with rfl | hmem'
              · exact hjk rfl
              · exact hj ⟨hmem', hpj⟩
            · rw [if_neg hjc]

theorem maxByKeyRustAux_mem {α : Type} (f : α → Nat) (m : α) (l : List α) :
    maxByKeyRustAux f m l = m ∨ maxByKeyRustAux f m l ∈ l := by
  induction l generalizing m with
  | nil => exact Or.inl rfl
  | cons x xs ih =>
      simp only [maxByKeyRustAux]
      rcases ih (if f m ≤ f x then x else m) with h | h
      · rw [h]
        by_cases hle : f m ≤ f x
        · right
          simp [hle]
        · left
          simp [hle]
      · right
        exact List.mem_cons_of_mem _ h

theorem maxByKeyRust_mem {α : Type} (f : α → Nat) (l : List α) (m : α)
    (h : maxByKeyRust f l = some m) : m ∈ l := by
  cases l with
  | nil => cases h
  | cons x xs =>
      simp only [maxByKeyRust, Option.some.injEq] at h
      subst h
      rcases maxByKeyRustAux_mem f x xs with h | h
      · rw [h]
        exact List.mem_cons_self x xs
      · exact List.mem_cons_of_mem _ h

theorem le_maxByKeyRustAux {α : Type} (f : α → Nat) (m : α) (l : List α) :
    f m ≤ f (maxByKeyRustAux f m l) ∧
    ∀ x ∈ l, f x ≤ f (maxByKeyRustAux f m l) := by
  induction l generalizing m with
  | nil => exact ⟨Nat.le_refl _, by simp⟩
  | cons x xs ih =>
      simp only [maxByKeyRustAux]
      obtain ⟨ih1, ih2⟩ := ih (if f m ≤ f x then x else m)
      have hm : f m ≤ f (if f m ≤ f x then x else m) := by
        by_cases hle : f m ≤ f x
        · simp [hle]
        · simp [hle]
      have hx : f x ≤ f (if f m ≤ f x then x else m) := by
        by_cases hle : f m ≤ f x
        · simp [hle]
        · simpa [hle] using Nat.le_of_lt (Nat.lt_of_not_le hle)
      refine ⟨Nat.le_trans hm ih1, ?_⟩
      intro y hy
      rcases List.mem_cons.mp hy with rfl | hy'
      · exact Nat.le_trans hx ih1
      · exact ih2 y hy'

theorem maxByKeyRust_le {α : Type} (f : α → Nat) (l : List α) (m : α)
    (h : maxByKeyRust f l = some m) : ∀ x ∈ l, f x ≤ f m := by
  cases l with
  | nil => cases h
  | cons x xs =>
      simp only [maxByKeyRust, Option.some.injEq] at h
      subst h
      intro y hy
      obtain ⟨h1, h2⟩ := le_maxByKeyRustAux f x xs
      rcases List.mem_cons.mp hy with rfl | hy'
      · exact h1
      · exact h2 y hy'

theorem maxByKeyRustAux_split {α : Type} (f : α → Nat) (m : α) (l : List α) :
    (maxByKeyRustAux f m l = m ∧ ∀ x ∈ l, f x < f m) ∨
    ∃ l₁ l₂, l = l₁ ++ maxByKeyRustAux f m l :: l₂ ∧
      ∀ x ∈ l₂, f x < f (maxByKeyRustAux f m l) := by
  induction l generalizing m with
  | nil => exact Or.inl ⟨rfl, by simp⟩
  | cons x xs ih =>
      simp only [maxByKeyRustAux]
      by_cases hle : f m ≤ f x
      · rw [if_pos hle]
        rcases ih x with ⟨heq, hall⟩ | ⟨l₁, l₂, heq, hall⟩
        · right
          refine ⟨[], xs, ?_, ?_⟩
          · simp [heq]
          · rw [heq]
            exact hall
        · right
          refine ⟨x :: l₁, l₂, ?_, hall⟩
          rw [List.cons_append, ← heq]
      · rw [if_neg hle]
        rcases ih m with ⟨heq, hall⟩ | ⟨l₁, l₂, heq, hall⟩
        · left
          refine ⟨heq, ?_⟩
          intro y hy
          rcases List.mem_cons.mp hy with rfl | hy'
          · exact Nat.lt_of_not_le hle
          · exact hall y hy'
        · right
          refine ⟨x :: l₁, l₂, ?_, hall⟩
          rw [List.cons_append, ← heq]

theorem maxByKeyRust_last {α : Type} (f : α → Nat) (l : List α) (m : α)
    (h : maxByKeyRust f l = some m) :
    ∃ l₁ l₂, l = l₁ ++ m :: l₂ ∧ ∀ x ∈ l₂, f x < f m := by
  cases l with
  | nil => cases h
  | cons x xs =>
      simp only [maxByKeyRust, Option.some.injEq] at h
      subst h
      rcases maxByKeyRustAux_split f x xs with ⟨heq, hall⟩ | ⟨l₁, l₂, heq, hall⟩
      · refine ⟨[], xs, ?_, ?_⟩
        · simp [heq]
        · rw [heq]
          exact hall
      · refine ⟨x :: l₁, l₂, ?_, hall⟩
        rw [List.cons_append, ← heq]

theorem selectPhysicalDevice_selected_inv (registry : Reg PhysicalDevice)
    (physicalDevices : List Nat) (best : Nat) (registry' : Reg PhysicalDevice)
    (hsel : selectPhysicalDevice registry physicalDevices
        = SelectOutcome.selected best registry') :
    (physicalDevices.all fun k => (registry.get k).isSome) = true ∧
    maxByKeyRust
      (rankKey (selectionRegistryAfterFilter registry physicalDevices))
      (survivors registry physicalDevices) = some best ∧
    registry' = removeUnless (fun k => k == best)
      (selectionRegistryAfterFilter registry physicalDevices)
      (survivors registry physicalDevices) := by
  unfold selectPhysicalDevice at hsel
  split at hsel
  case isTrue hall =>
    split at hsel
    · cases hsel
    · rename_i b heq
      rw [SelectOutcome.selected.injEq] at hsel
      obtain ⟨hb, hreg⟩ := hsel
      subst hb
      exact ⟨hall, heq, hreg.symm⟩
  case isFalse hall => cases hsel

theorem mem_survivors {registry : Reg PhysicalDevice}
    {physicalDevices : List Nat} {k : Nat}
    (h : k ∈ survivors registry physicalDevices) :
    k ∈ physicalDevices ∧
      ((registry.get k).map physicalDeviceSuitable).getD false = true := by
  simpa [survivors] using List.mem_filter.mp h

theorem get_isSome_of_mem_survivors {registry : Reg PhysicalDevice}
    {physicalDevices : List Nat} {k : Nat}
    (h : k ∈ survivors registry physicalDevices) :
    (registry.get k).isSome = true := by
  obtain ⟨-, h2⟩ := mem_survivors h
  cases hget : registry.get k with
  | none =>
      rw [hget] at h2
      simp at h2
  | some d => rfl

theorem get_afterFilter_of_mem_survivors (registry : Reg PhysicalDevice)
    (physicalDevices : List Nat) (k : Nat)
    (h : k ∈ survivors registry physicalDevices) :
    (selectionRegistryAfterFilter registry physicalDevices).get k
      = registry.get k := by
  unfold selectionRegistryAfterFilter
  rw [Reg.get_removeUnless]
  rw [if_neg]
  rintro ⟨-, hcon⟩
  have hmem : (survivors registry physicalDevices).contains k = true :=
    List.elem_eq_true_of_mem h
  rw [hmem] at hcon
  cases hcon


/-- Claim C3: after successful device selection, the physical-device registry
contains exactly the selected entry: rejected and non-selected devices are
all removed. -/
theorem selection_registry_exactly_selected (registry : Reg PhysicalDevice)
    (physicalDevices : List Nat) (best : Nat) (registry' : Reg PhysicalDevice)
    (hkeys : registry.map Prod.fst = physicalDevices)
    (hsel : selectPhysicalDevice registry physicalDevices
        = SelectOutcome.selected best registry') :
    ∀ k, (registry'.get k).isSome = true ↔ k = best := by
  obtain ⟨hall, hmax, hreg⟩ := selectPhysicalDevice_selected_inv _ _ _ _ hsel
  have hbest : best ∈ survivors registry physicalDevices :=
    maxByKeyRust_mem _ _ _ hmax
  subst hreg
  intro k
  rw [Reg.get_removeUnless]
  constructor
  · intro hk
    by_contra hne
    by_cases hks : k ∈ survivors registry physicalDevices
    · rw [if_pos ⟨hks, beq_false_of_ne hne⟩] at hk
      simp at hk
    · rw [if_neg (fun hc => hks hc.1)] at hk
      unfold selectionRegistryAfterFilter at hk
      rw [Reg.get_removeUnless] at hk
      by_cases hpd : k ∈ physicalDevices
      · have hcon : (survivors registry physicalDevices).contains k = false :=
          Bool.eq_false_iff.mpr fun hc => hks (List.mem_of_elem_eq_true hc)
        rw [if_pos ⟨hpd, hcon⟩] at hk
        simp at hk
      · rw [if_neg (fun hc => hpd hc.1)] at hk
        rw [Reg.get_eq_none_of_not_mem] at hk
        · simp at hk
        · rw [hkeys]
          exact hpd
  · rintro rfl
    rw [if_neg fun hc => by simpa using hc.2]
    rw [get_afterFilter_of_mem_survivors _ _ _ hbest]
    exact get_isSome_of_mem_survivors hbest

/-- Witness for C3: three enumerated devices of which only key 1 supports
presentation; afterwards the registry holds key 1 and neither key 0 nor 2. -/
theorem selection_registry_exactly_selected_witness :
    ((Reg.get [(1, devYes)] 1).isSome = true ↔ 1 = 1) ∧
    (Reg.get [(1, devYes)] 0).isSome = false ∧
    (Reg.get [(1, devYes)] 2).isSome = false := by
  have h := selection_registry_exactly_selected sampleDeviceRegistry [0, 1, 2] 1
    [(1, devYes)] (by decide) (by decide)
  refine ⟨h 1, ?_, ?_⟩
  · cases hc : (Reg.get [(1, devYes)] 0).isSome with
    | false => rfl
    | true => exact absurd ((h 0).mp hc) (by decide)
  · cases hc : (Reg.get [(1, devYes)] 2).isSome with
    | false => rfl
    | true => exact absurd ((h 2).mp hc) (by decide)

/-- Claim C4 counterexample: with two surviving devices tied for the maximal
ranking key, the code selects key 1, the LAST maximal element in enumeration
order, not the first (key 0). -/
theorem selection_tie_counterexample :
    selectPhysicalDevice [(0, devTie), (1, devTie)] [0, 1]
      = SelectOutcome.selected 1 [(1, devTie)] ∧
    survivors [(0, devTie), (1, devTie)] [0, 1] = [0, 1] ∧
    rankKey [(0, devTie), (1, devTie)] 0
      = rankKey [(0, devTie), (1, devTie)] 1 := by decide

/-- Claim C4 (amended): the selected key is a survivor maximizing the
ranking key, and among survivors tied for the maximum it is the LAST in
enumeration order: every survivor after it ranks strictly lower. -/
theorem selection_max_by_rank_last (registry : Reg PhysicalDevice)
    (physicalDevices : List Nat) (best : Nat) (registry' : Reg PhysicalDevice)
    (hsel : selectPhysicalDevice registry physicalDevices
        = SelectOutcome.selected best registry') :
    best ∈ survivors registry physicalDevices ∧
    (∀ k ∈ survivors registry physicalDevices,
      rankKey registry k ≤ rankKey registry best) ∧
    ∃ l₁ l₂, survivors registry physicalDevices = l₁ ++ best :: l₂ ∧
      ∀ k ∈ l₂, rankKey registry k < rankKey registry best := by
  obtain ⟨hall, hmax, hreg⟩ := selectPhysicalDevice_selected_inv _ _ _ _ hsel
  have hbest : best ∈ survivors registry physicalDevices :=
    maxByKeyRust_mem _ _ _ hmax
  have htrans : ∀ k ∈ survivors registry physicalDevices,
      rankKey (selectionRegistryAfterFilter registry physicalDevices) k
        = rankKey registry k := by
    intro k hk
    unfold rankKey
    rw [get_afterFilter_of_mem_survivors _ _ _ hk]
  refine ⟨hbest, ?_, ?_⟩
  · intro k hk
    have hle := maxByKeyRust_le _ _ _ hmax k hk
    rwa [htrans k hk, htrans best hbest] at hle
  · obtain ⟨l₁, l₂, heq, hlt⟩ := maxByKeyRust_last _ _ _ hmax
    refine ⟨l₁, l₂, heq, ?_⟩
    intro k hk
    have hkmem : k ∈ survivors registry physicalDevices := by
      rw [heq]
      exact List.mem_append_right _ (List.mem_cons_of_mem _ hk)
    have hl := hlt k hk
    rwa [htrans k hkmem, htrans best hbest] at hl

/-- Witness for C4 at the tie example: the selected key 1 is maximal and
last among the tied survivors. -/
theorem selection_max_by_rank_last_witness :
    1 ∈ survivors [(0, devTie), (1, devTie)] [0, 1] ∧
    (∀ k ∈ survivors [(0, devTie), (1, devTie)] [0, 1],
      rankKey [(0, devTie), (1, devTie)] k
        ≤ rankKey [(0, devTie), (1, devTie)] 1) ∧
    ∃ l₁ l₂, survivors [(0, devTie), (1, devTie)] [0, 1] = l₁ ++ 1 :: l₂ ∧
      ∀ k ∈ l₂, rankKey [(0, devTie), (1, devTie)] k
        < rankKey [(0, devTie), (1, devTie)] 1 :=
  selection_max_by_rank_last [(0, devTie), (1, devTie)] [0, 1] 1
    [(1, devTie)] (by decide)

/-- Claim C5: when no enumerated device passes both the suitability predicate
and the surface-compatibility predicate, selection returns the "no suitable
physical devices were found" error instead of succeeding or panicking. -/
theorem selection_no_suitable_device_error (registry : Reg PhysicalDevice)
    (physicalDevices : List Nat)
    (hall : ∀ k ∈ physicalDevices, (registry.get k).isSome = true)
    (hfail : ∀ k ∈ physicalDevices, ∀ d, registry.get k = some d →
      physicalDeviceSuitable d = false) :
    selectPhysicalDevice registry physicalDevices
      = SelectOutcome.failed "no suitable physical devices were found" := by
  have hsurv : survivors registry physicalDevices = [] := by
    rw [survivors, List.filter_eq_nil_iff]
    intro k hk
    cases hget : registry.get k with
    | none =>
        have hsome := hall k hk
        rw [hget] at hsome
        simp at hsome
    | some d => simp [hget, hfail k hk d hget]
  unfold selectPhysicalDevice
  rw [if_pos (List.all_eq_true.mpr hall), hsurv]
  rfl

/-- Witness for C5: one enumerated device failing the surface predicate. -/
theorem selection_no_suitable_device_error_witness :
    selectPhysicalDevice [(0, devNo)] [0]
      = SelectOutcome.failed "no suitable physical devices were found" := by
  apply selection_no_suitable_device_error
  · intro k hk
    rw [List.mem_singleton.mp hk]
    rfl
  · intro k hk d hd
    rw [List.mem_singleton.mp hk] at hd
    have hdev : devNo = d := by
      have : some devNo = some d := hd
      exact Option.some.inj this
    rw [← hdev]
    rfl

/-- Claim C6 counterexample: with a driver reporting highest version 1.1.0,
Instance::new requests api_version = vk::API_VERSION_1_2 in the application
info, not the reported version. -/
theorem instance_api_version_counterexample :
    (instanceNewVersionInfo
        (Config.new "titan" { major := 0, minor := 1, patch := 0 } true)
        (some (vkMakeVersion 1 1 0))).2.apiVersion
      ≠ vkMakeVersion 1 1 0 := by decide

/-- Claim C6 (amended): the api_version requested in the application info is
always the fixed vk::API_VERSION_1_2; the driver-reported highest version,
or the 1.0 floor when the driver reports none, is only stored in the
Instance's version field, never requested. -/
theorem instance_api_version_fixed (config : Config)
    (driverVersion : Option Nat) :
    (instanceNewVersionInfo config driverVersion).2.apiVersion
      = API_VERSION_1_2 ∧
    (instanceNewVersionInfo config driverVersion).1
      = fromVkVersion (driverVersion.getD API_VERSION_1_0) := by
  cases driverVersion <;> simp [instanceNewVersionInfo]

/-- Claim C7: a resize notification with zero width or height triggers no
renderer resize: the handler performs no rendererResize action, leaves the
object chain untouched, and invokes the callback with the default (zero)
size instead of a resize. -/
theorem zero_resize_no_rebuild (width height : Nat) (resizeOk : Bool)
    (h : width = 0 ∨ height = 0) :
    handleResizedEvent width height resizeOk
      = [RunAction.callback (AppEvent.resized Size.default)] ∧
    RunAction.rendererResize ∉ handleResizedEvent width height resizeOk := by
  have heq : handleResizedEvent width height resizeOk
      = [RunAction.callback (AppEvent.resized Size.default)] := by
    unfold handleResizedEvent
    rw [if_pos h]
  refine ⟨heq, ?_⟩
  rw [heq]
  simp

/-- Witness for C7 at a zero-width resize of 0 x 600. -/
theorem zero_resize_no_rebuild_witness :
    ((0 : Nat) = 0 ∨ (600 : Nat) = 0) ∧
    (handleResizedEvent 0 600 true
        = [RunAction.callback (AppEvent.resized Size.default)] ∧
      RunAction.rendererResize ∉ handleResizedEvent 0 600 true) :=
  ⟨Or.inl rfl, zero_resize_no_rebuild 0 600 true (Or.inl rfl)⟩

/-- Claim C8 counterexample: Drop for PipelineLayout with the parent device
missing from the registry silently returns: no native destruction is
attempted and no error is surfaced. -/
theorem drop_missing_parent_counterexample :
    PipelineLayout.drop [] { key := 3, handle := 7, parentDevice := 0 }
      = DropEffect.skipped := by decide

/-- Claim C8 (amended): a missing parent key is surfaced as the error
"device not found" by construction (PipelineLayout::with), while teardown
(Drop) silently skips native destruction without surfacing an error. -/
theorem layout_parent_lookup (devices : Reg Device) (deviceKey : Nat)
    (createdHandle newKey : Nat) (self : PipelineLayout)
    (hmiss : devices.get deviceKey = none)
    (hmissSelf : devices.get self.parentDevice = none) :
    PipelineLayout.withCreateInfo devices deviceKey createdHandle newKey
      = Except.error "device not found" ∧
    PipelineLayout.drop devices self = DropEffect.skipped := by
  constructor
  · unfold PipelineLayout.withCreateInfo
    rw [hmiss]
  · unfold PipelineLayout.drop
    rw [hmissSelf]

/-- Witness for C8 with an empty device registry. -/
theorem layout_parent_lookup_witness :
    PipelineLayout.withCreateInfo [] 0 7 1 = Except.error "device not found" ∧
    PipelineLayout.drop [] { key := 3, handle := 7, parentDevice := 0 }
      = DropEffect.skipped :=
  layout_parent_lookup [] 0 7 1 { key := 3, handle := 7, parentDevice := 0 }
    rfl rfl

theorem appInitRun_flag_true (calls : List Bool) :
    appInitRun true calls = calls.map fun _ => InitOutcome.panicked := by
  induction calls with
  | nil => rfl
  | cons c rest ih =>
      show InitOutcome.panicked :: appInitRun true rest = _
      rw [ih, List.map_cons]

/-- Claim C10: across any sequence of app::init calls, at most one call
returns an Application: only the first call can construct one, and no later
call ever returns another (after the first call the process-wide FLAG is
set, and the compare_exchange unwrap makes later calls panic). -/
theorem init_returns_at_most_one (calls : List Bool) :
    (appInitRun false calls).count InitOutcome.ok ≤ 1 ∧
    ∀ o ∈ (appInitRun false calls).tail, o ≠ InitOutcome.ok := by
  cases calls with
  | nil => exact ⟨by simp [appInitRun], by simp [appInitRun]⟩
  | cons c rest =>
      have hstep : appInitRun false (c :: rest)
          = (if c then InitOutcome.ok else InitOutcome.newFailed)
            :: appInitRun true rest := by
        cases c <;> rfl
      rw [hstep, appInitRun_flag_true]
      constructor
      · cases c <;> simp [List.count_cons, List.count_replicate]
      · intro o ho
        simp only [List.tail_cons] at ho
        obtain ⟨b, hb, rfl⟩ := List.mem_map.mp ho
        intro hcontra
        cases hcontra
